import Mathlib

/-!
Shallow embedding of the position-liquidation core of the SellerMarket
repository (`src/SellerMarket/portfolio_manager.py`), together with theorems
checking the natural-language specification against it.

Conventions of the embedding:
* Python `float` prices are modelled as `ℚ` (exact rationals); Python `int`
  volumes/quantities as `ℤ`.
* Stateful methods of `PortfolioWatcher` become pure functions threading an
  explicit `WatcherState`; broker I/O becomes oracle functions passed as
  arguments (`Int → Option BrokerStatus` for order-status polling, etc.).
* Broker mutation calls (order submission, order cancellation) are reified as
  an `Effect` list so that "no Submit/Reprice happens" is a statement about
  the emitted effect list.
-/

set_option autoImplicit false

namespace SellerMarket

/-- Market phase, mirroring `MarketPhase` (portfolio_manager.py lines 80-85). -/
inductive MarketPhase where
  | closed
  | premarket
  | orderFreeze
  | trading
deriving DecidableEq, Repr

/-- Broker order states, mirroring `OrderState` (lines 140-152).
`adding`=1, `added`=2, `executed`=3, `canceled`=4, `error`=5,
`partExecuted`=6 (PARTIAL_EXECUTED), `modified`=7, `canceling`=8,
`modifying`=9, `sleError`=10, `deprecated`=11. -/
inductive OrderState where
  | adding
  | added
  | executed
  | canceled
  | error
  | partExecuted
  | modified
  | canceling
  | modifying
  | sleError
  | deprecated
deriving DecidableEq, Repr

/-- A portfolio position, mirroring `PortfolioPosition` (lines 155-167). -/
structure PortfolioPosition where
  isin : String
  symbol : String
  quantity : Int
  average_price : ℚ
  current_price : ℚ
deriving DecidableEq, Repr

/-- One row of the best-limits (order book) table, mirroring `BestLimit`
(lines 170-180). -/
structure BestLimit where
  isin : String
  row : Int
  buy_volume : Int
  buy_order_count : Int
  buy_price : ℚ
  sell_volume : Int
  sell_order_count : Int
  sell_price : ℚ
deriving DecidableEq, Repr

/-- Market snapshot for one instrument, mirroring `MarketCondition`
(lines 183-216); the `timestamp` field is omitted (never read by the logic). -/
structure MarketCondition where
  isin : String
  symbol : String
  last_price : ℚ
  max_price : ℚ
  min_price : ℚ
  best_limits : List BestLimit
  total_buy_volume : Int
  total_sell_volume : Int
  is_queued : Bool
deriving DecidableEq, Repr

/-- `MarketCondition.best_buy_price` property (lines 197-202): first-row buy
price when present and positive, else `0`. -/
def MarketCondition.best_buy_price (m : MarketCondition) : ℚ :=
  match m.best_limits with
  | b :: _ => if b.buy_price > 0 then b.buy_price else 0
  | [] => 0

/-- `MarketCondition.best_sell_price` property (lines 204-209). -/
def MarketCondition.best_sell_price (m : MarketCondition) : ℚ :=
  match m.best_limits with
  | b :: _ => if b.sell_price > 0 then b.sell_price else 0
  | [] => 0

/-- `MarketCondition.first_row_buy_volume` property (lines 211-216). -/
def MarketCondition.first_row_buy_volume (m : MarketCondition) : Int :=
  match m.best_limits with
  | b :: _ => b.buy_volume
  | [] => 0

/-- The `is_queued` derivation performed by `get_best_limits`
(lines 397-404): queued iff total sell volume is zero, or the book is
non-empty with its best sell pinned at the ceiling with positive volume. -/
def compute_is_queued (total_sell_volume : Int) (best_limits : List BestLimit)
    (max_price : ℚ) : Bool :=
  total_sell_volume == 0 ||
    (match best_limits with
     | [] => false
     | b :: _ => decide (b.sell_price ≥ max_price) && decide (b.sell_volume > 0))

/-- A tracked sell order, mirroring `SellOrder` (lines 219-231). -/
structure SellOrder where
  isin : String
  price : ℚ
  volume : Int
  serial_number : Option Int
  state : Option OrderState
  executed_volume : Int
  remaining_volume : Int
deriving DecidableEq, Repr

/-- `SellOrder.__post_init__` (lines 230-231): builds an order with
`remaining_volume = volume - executed_volume`. -/
def SellOrder.mk' (isin : String) (price : ℚ) (volume : Int)
    (serial_number : Option Int := none) (state : Option OrderState := none)
    (executed_volume : Int := 0) : SellOrder :=
  { isin := isin, price := price, volume := volume,
    serial_number := serial_number, state := state,
    executed_volume := executed_volume,
    remaining_volume := volume - executed_volume }

/-- Per-watcher configuration, mirroring `PortfolioConfig` (lines 234-244);
credential fields are omitted (never read by the decision/ledger logic). -/
structure PortfolioConfig where
  isin : String
  min_buy_volume : Int
  sell_discount : ℚ
deriving DecidableEq, Repr

/-- `PortfolioWatcher._determine_sell_action` (lines 732-776), as a pure
function of the snapshot, the phase and the configuration.

The Python function returns a two-element tuple `(price, reason)`, a tuple
`(None, None)` for "hold", or — on the fall-through path where the market is
queued, first-row buy volume is below threshold, but `best_buy_price` is not
positive — a bare `None` (no `return` statement is reached).  We model the
result as `Option (Option ℚ × Option String)`: `some (some p, some r)` is a
sell decision, `some (none, none)` is the explicit hold, and `none` is the
bare-`None` fall-through (which makes the caller's tuple unpacking raise). -/
def determine_sell_action (config : PortfolioConfig) (market : MarketCondition)
    (phase : MarketPhase) : Option (Option ℚ × Option String) :=
  if market.is_queued then
    if market.first_row_buy_volume < config.min_buy_volume then
      let price := market.best_buy_price
      if price > 0 then some (some price, some "queue_demand_low")
      else none
    else
      some (none, none)
  else
    let price := market.last_price * config.sell_discount
    let price := if price < market.min_price then market.min_price else price
    if phase = MarketPhase.premarket then some (some price, some "premarket_normal")
    else some (some price, some "normal_market_sell")

/-- A broker-reported order-status record, as consumed by
`_update_pending_orders` (line 847-848): the `orderState` and
`executedVolume` fields of the open-orders entry. -/
structure BrokerStatus where
  orderState : OrderState
  executedVolume : Int
deriving DecidableEq, Repr

/-- One iteration of the loop body of `PortfolioWatcher._update_pending_orders`
(lines 834-863) for a single tracked order.  `broker` is the
`get_order_status` oracle.  Returns the (possibly updated) order if it is kept
in the active set, and the amount credited to `_total_sold` by this order.

Mirrors the source exactly:
* `serial_number is None` → `continue` (dropped, no credit);
* status `None` (not among open orders) → treated as executed: credit the full
  submitted `volume`, dropped;
* otherwise the order's `state`, `executed_volume`, `remaining_volume` are
  overwritten from the report, then:
  `EXECUTED` → credit full `volume`, dropped; `PARTIAL_EXECUTED` → credit the
  reported absolute `executed_volume`, kept; `ADDED`/`ADDING`/`MODIFYING` →
  kept, no credit; every other state (`CANCELED`, `ERROR`, `MODIFIED`,
  `CANCELING`, `SLE_ERROR`, `DEPRECATED`) → dropped, no credit. -/
def processOrder (broker : Int → Option BrokerStatus) (o : SellOrder) :
    Option SellOrder × Int :=
  match o.serial_number with
  | none => (none, 0)
  | some sn =>
    match broker sn with
    | none => (none, o.volume)
    | some st =>
      let o' := { o with state := some st.orderState,
                         executed_volume := st.executedVolume,
                         remaining_volume := o.volume - st.executedVolume }
      match st.orderState with
      | OrderState.executed => (none, o'.volume)
      | OrderState.partExecuted => (some o', o'.executed_volume)
      | OrderState.added => (some o', 0)
      | OrderState.adding => (some o', 0)
      | OrderState.modifying => (some o', 0)
      | _ => (none, 0)

/-- `PortfolioWatcher._update_pending_orders` (lines 830-865): reconciles every
tracked order against the broker report, returning the new active pending set
and the new `_total_sold` running total. -/
def updatePendingOrders (broker : Int → Option BrokerStatus) :
    List SellOrder → Int → List SellOrder × Int
  | [], total => ([], total)
  | o :: rest, total =>
    let pc := processOrder broker o
    let r := updatePendingOrders broker rest (total + pc.2)
    match pc.1 with
    | some o' => (o' :: r.1, r.2)
    | none => r

/-- `PortfolioWatcher._get_pending_volume` (lines 867-869). -/
def pendingVolume (orders : List SellOrder) : Int :=
  (orders.map (fun o => o.remaining_volume)).sum

/-- A broker mutation call made by the watcher: an order submission
(`place_sell_order`) or an order cancellation (`cancel_order`). -/
inductive Effect where
  | placeOrder (price : ℚ) (volume : Int)
  | cancelOrder (serial : Int)
deriving DecidableEq, Repr

/-- The sequence of order volumes attempted by the splitting loop of
`_execute_sell` (lines 805-828): at each step `order_volume =
min(remaining, max_volume)` and `remaining` decreases by it. -/
def splitVolumes (max_volume : Int) : Nat → Int → List Int
  | 0, _ => []
  | n + 1, remaining =>
    min remaining max_volume :: splitVolumes max_volume n (remaining - min remaining max_volume)

/-- The submission loop of `PortfolioWatcher._execute_sell` (lines 805-828).
`submit i` is the result of the `i`-th `place_sell_order` call (`some serial`
on success, `none` on failure).  Returns the orders appended to
`_pending_orders` and the submission effects, in call order.  A failed
submission only skips the append; the loop continues with the next split. -/
def executeSellLoop (isin : String) (price : ℚ) (max_volume : Int)
    (submit : Nat → Option Int) : Nat → Int → Nat → List SellOrder × List Effect
  | 0, _, _ => ([], [])
  | n + 1, remaining, i =>
    let vol := min remaining max_volume
    let rest := executeSellLoop isin price max_volume submit n (remaining - vol) (i + 1)
    match submit i with
    | some serial =>
      (SellOrder.mk' isin price vol (some serial) (some OrderState.adding) :: rest.1,
       Effect.placeOrder price vol :: rest.2)
    | none => (rest.1, Effect.placeOrder price vol :: rest.2)

/-- `PortfolioWatcher._execute_sell` (lines 778-828): computes
`orders_needed = (quantity + max_volume - 1) // max_volume` and runs the
submission loop.  `max_volume` is the instrument's per-order maximum
(`instrument_info['max_volume']`). -/
def executeSell (isin : String) (price : ℚ) (quantity : Int) (max_volume : Int)
    (submit : Nat → Option Int) : List SellOrder × List Effect :=
  let ordersNeeded := (quantity + max_volume - 1) / max_volume
  executeSellLoop isin price max_volume submit ordersNeeded.toNat quantity 0

/-- `can_modify_orders` (lines 102-105), with the phase passed explicitly
(the source re-derives it from the wall clock; within one tick we model a
single phase value). -/
def canModifyOrders (phase : MarketPhase) : Bool :=
  phase == MarketPhase.premarket || phase == MarketPhase.trading

/-- Python truthiness of `order.serial_number` (line 722): `None` and `0` are
falsy. -/
def serialTruthy (o : SellOrder) : Bool :=
  match o.serial_number with
  | none => false
  | some sn => sn != 0

/-- The cancellation loop of `_handle_order_repricing` (lines 721-730):
for each order selected for repricing whose serial number is truthy, a
`cancel_order` call is made; on success the order is removed (first
equal element) from the pending list.  `cancelOk` is the cancellation
oracle. -/
def cancelLoop (cancelOk : Int → Bool) :
    List SellOrder → List SellOrder → List SellOrder × List Effect
  | [], pending => (pending, [])
  | o :: rest, pending =>
    match o.serial_number with
    | none => cancelLoop cancelOk rest pending
    | some sn =>
      if sn = 0 then cancelLoop cancelOk rest pending
      else
        let pending' := if cancelOk sn then pending.erase o else pending
        let r := cancelLoop cancelOk rest pending'
        (r.1, Effect.cancelOrder sn :: r.2)

/-- `PortfolioWatcher._handle_order_repricing` (lines 694-730): in a
modifiable phase, for a non-queued market, cancel every pending order in
state `ADDED`/`ADDING` priced more than `1` above
`last_price * sell_discount`. -/
def handleOrderRepricing (config : PortfolioConfig) (market : MarketCondition)
    (phase : MarketPhase) (cancelOk : Int → Bool)
    (pending : List SellOrder) : List SellOrder × List Effect :=
  if pending.isEmpty || !canModifyOrders phase then (pending, [])
  else if market.is_queued then (pending, [])
  else
    let targetPrice := market.last_price * config.sell_discount
    let toCancel := pending.filter (fun o =>
      (o.state == some OrderState.added || o.state == some OrderState.adding) &&
        decide (o.price > targetPrice + 1))
    cancelLoop cancelOk toCancel pending

/-- The per-watcher mutable state owned by `PortfolioWatcher` (lines 560-567):
`_pending_orders`, `_total_sold`, `_target_quantity`, `_running`,
`_last_market_phase`, `_freeze_notified`. -/
structure WatcherState where
  pending_orders : List SellOrder
  total_sold : Int
  target_quantity : Int
  running : Bool
  last_market_phase : Option MarketPhase
  freeze_notified : Bool
deriving DecidableEq, Repr

/-- Everything one tick reads from the outside world: the session phase, the
polled position (`None` when the ISIN is absent from the portfolio), the
market snapshot, the `get_order_status` oracle, the instrument's
`max_volume`, and the submission/cancellation outcome oracles. -/
structure TickInput where
  phase : MarketPhase
  position : Option PortfolioPosition
  market : MarketCondition
  broker : Int → Option BrokerStatus
  max_volume : Int
  submit : Nat → Option Int
  cancelOk : Int → Bool

/-- Result of one tick: the new watcher state, the broker mutation calls made
during the tick (in call order), and whether the tick aborted with an
uncaught exception (caught by `_watch_loop`'s handler, line 609). -/
structure TickResult where
  state : WatcherState
  effects : List Effect
  errored : Bool
deriving Repr

/-- The early-return branch of `_check_and_act` for an absent or empty
position (lines 638-645): the watcher stops (transitions out of `Running`)
only when a liquidation target was set and the cumulative sold total has
reached it. -/
def completionCheck (s : WatcherState) : TickResult :=
  if s.target_quantity > 0 ∧ s.total_sold ≥ s.target_quantity then
    ⟨{ s with running := false }, [], false⟩
  else ⟨s, [], false⟩

/-- `PortfolioWatcher._check_and_act` (lines 615-692), one full tick:
phase-change bookkeeping; skip when closed; completion check on an
absent/empty position; set the liquidation target on first sight; reconcile
the pending-order ledger; during `ORDER_FREEZE` stop there (monitor only);
otherwise reprice, ask the decision engine, and submit for the quantity not
already covered by pending orders.  A bare-`None` decision makes the caller's
tuple unpacking raise, aborting the tick (`errored = true`). -/
def checkAndAct (config : PortfolioConfig) (inp : TickInput)
    (s0 : WatcherState) : TickResult :=
  let s := if s0.last_market_phase ≠ some inp.phase then
      { s0 with last_market_phase := some inp.phase, freeze_notified := false }
    else s0
  if inp.phase = MarketPhase.closed then ⟨s, [], false⟩
  else
    match inp.position with
    | none => completionCheck s
    | some pos =>
      if pos.quantity ≤ 0 then completionCheck s
      else
        let s := if s.target_quantity = 0 then { s with target_quantity := pos.quantity } else s
        let up := updatePendingOrders inp.broker s.pending_orders s.total_sold
        let s := { s with pending_orders := up.1, total_sold := up.2 }
        if inp.phase = MarketPhase.orderFreeze then ⟨{ s with freeze_notified := true }, [], false⟩
        else
          let rp := handleOrderRepricing config inp.market inp.phase inp.cancelOk s.pending_orders
          let s := { s with pending_orders := rp.1 }
          match determine_sell_action config inp.market inp.phase with
          | none => ⟨s, rp.2, true⟩
          | some (sellPrice, _sellReason) =>
            match sellPrice with
            | none => ⟨s, rp.2, false⟩
            | some price =>
              let remaining := pos.quantity - pendingVolume s.pending_orders
              if remaining ≤ 0 then ⟨s, rp.2, false⟩
              else
                let ex := executeSell config.isin price remaining inp.max_volume inp.submit
                ⟨{ s with pending_orders := s.pending_orders ++ ex.1 },
                  rp.2 ++ ex.2, false⟩

/-- Volume of a submission effect (`0` for a cancellation); used to state
facts about the quantities submitted by the splitting loop. -/
def effectVolume : Effect → Int
  | Effect.placeOrder _ v => v
  | Effect.cancelOrder _ => 0

/-- The guard `not position or position.quantity <= 0` of `_check_and_act`
(line 638), as a Boolean on the polled optional position. -/
def positionGone : Option PortfolioPosition → Bool
  | none => true
  | some p => decide (p.quantity ≤ 0)

/-- Sample configuration with the source defaults: threshold 30,000,000 and
discount 0.99 (lines 242-243). -/
def sampleConfig : PortfolioConfig :=
  { isin := "IRO1TEST0001", min_buy_volume := 30000000, sell_discount := 99 / 100 }

/-- A queued snapshot with an empty order book: `total_sell_volume = 0` makes
the `get_best_limits` derivation classify it as queued, and the first-row buy
volume and best buy price both read as `0`. -/
def emptyQueuedMarket : MarketCondition :=
  { isin := "IRO1TEST0001", symbol := "TEST", last_price := 5000,
    max_price := 5500, min_price := 4500, best_limits := [],
    total_buy_volume := 0, total_sell_volume := 0, is_queued := true }

/-- The sell-queue panic snapshot of the repository's own test
`test_determine_sell_action_sell_queue_panic` (test_portfolio_manager.py
lines 737-755): best sell pinned at the session floor 4500, aggregate sell
500,000,000 versus aggregate buy 500,000, last price 5247, non-queued. -/
def panicMarket : MarketCondition :=
  { isin := "IRO1TEST0001", symbol := "TEST", last_price := 5247,
    max_price := 5404, min_price := 4500,
    best_limits := [{ isin := "IRO1TEST0001", row := 1, buy_volume := 100000,
                      buy_order_count := 10, buy_price := 4500,
                      sell_volume := 50000000, sell_order_count := 5000,
                      sell_price := 4500 }],
    total_buy_volume := 500000, total_sell_volume := 500000000,
    is_queued := false }

/-- Non-queued snapshot from the repository test
`test_determine_sell_action_price_floor_at_min_price`: the discounted price
3200 × 0.99 = 3168 falls below the session floor 3180. -/
def floorMarket : MarketCondition :=
  { isin := "IRO1TEST0001", symbol := "TEST", last_price := 3200,
    max_price := 3400, min_price := 3180,
    best_limits := [{ isin := "IRO1TEST0001", row := 1, buy_volume := 1000,
                      buy_order_count := 10, buy_price := 3200,
                      sell_volume := 500, sell_order_count := 5,
                      sell_price := 3210 }],
    total_buy_volume := 1000, total_sell_volume := 500, is_queued := false }

/-- A queued snapshot whose first-row buy volume 100,000 is below the
30,000,000 threshold while the best buy price 4500 is positive. -/
def queuedLowMarket : MarketCondition :=
  { isin := "IRO1TEST0001", symbol := "TEST", last_price := 4500,
    max_price := 5500, min_price := 4500,
    best_limits := [{ isin := "IRO1TEST0001", row := 1, buy_volume := 100000,
                      buy_order_count := 10, buy_price := 4500,
                      sell_volume := 0, sell_order_count := 0,
                      sell_price := 0 }],
    total_buy_volume := 100000, total_sell_volume := 0, is_queued := true }

/-- A queued snapshot with healthy demand: first-row buy volume 50,000,000 is
at or above the 30,000,000 threshold, so the decision is to hold. -/
def queuedHighMarket : MarketCondition :=
  { isin := "IRO1TEST0001", symbol := "TEST", last_price := 4500,
    max_price := 5500, min_price := 4500,
    best_limits := [{ isin := "IRO1TEST0001", row := 1,
                      buy_volume := 50000000, buy_order_count := 10,
                      buy_price := 4500, sell_volume := 0,
                      sell_order_count := 0, sell_price := 0 }],
    total_buy_volume := 50000000, total_sell_volume := 0, is_queued := true }

/-- Plain non-queued snapshot: last price 5000, floor 4500, modest two-sided
book. -/
def normalMarket : MarketCondition :=
  { isin := "IRO1TEST0001", symbol := "TEST", last_price := 5000,
    max_price := 5500, min_price := 4500,
    best_limits := [{ isin := "IRO1TEST0001", row := 1, buy_volume := 1000,
                      buy_order_count := 10, buy_price := 4990,
                      sell_volume := 800, sell_order_count := 5,
                      sell_price := 5010 }],
    total_buy_volume := 1000, total_sell_volume := 800, is_queued := false }

/-- Fresh watcher state right after `start()`: no pending orders, nothing
sold, no target yet. -/
def freshState : WatcherState :=
  { pending_orders := [], total_sold := 0, target_quantity := 0,
    running := true, last_market_phase := none, freeze_notified := false }

/-- Watcher state mid-liquidation: target 100 recorded, 50 sold so far. -/
def midState : WatcherState :=
  { pending_orders := [], total_sold := 50, target_quantity := 100,
    running := true, last_market_phase := some MarketPhase.trading,
    freeze_notified := false }

/-- A position with zero held quantity. -/
def zeroPosition : PortfolioPosition :=
  { isin := "IRO1TEST0001", symbol := "TEST", quantity := 0,
    average_price := 5000, current_price := 5000 }

/-- A position holding 100 shares. -/
def pos100 : PortfolioPosition :=
  { isin := "IRO1TEST0001", symbol := "TEST", quantity := 100,
    average_price := 5000, current_price := 5000 }

/-- A position holding 40 shares (after 60 of 100 were filled). -/
def pos40 : PortfolioPosition :=
  { isin := "IRO1TEST0001", symbol := "TEST", quantity := 40,
    average_price := 5000, current_price := 5000 }

/-- Status oracle: every order is reported `PARTIAL_EXECUTED` with absolute
executed volume 400. -/
def brokerPart400 : Int → Option BrokerStatus :=
  fun _ => some { orderState := OrderState.partExecuted, executedVolume := 400 }

/-- Status oracle: every order is reported `PARTIAL_EXECUTED` with absolute
executed volume 60. -/
def brokerPart60 : Int → Option BrokerStatus :=
  fun _ => some { orderState := OrderState.partExecuted, executedVolume := 60 }

/-- Status oracle: every order is reported in the transient `CANCELING`
state. -/
def brokerCanceling : Int → Option BrokerStatus :=
  fun _ => some { orderState := OrderState.canceling, executedVolume := 0 }

/-- Status oracle: no order appears among open orders. -/
def brokerAbsent : Int → Option BrokerStatus := fun _ => none

/-- A tracked order of 1000 shares at price 5000 with serial number 111. -/
def order111 : SellOrder := SellOrder.mk' "IRO1TEST0001" 5000 1000 (some 111)

/-- A tracked order of 1000 shares at price 5000, serial 111, known to be in
state `ADDED`. -/
def orderAdded111 : SellOrder :=
  SellOrder.mk' "IRO1TEST0001" 5000 1000 (some 111) (some OrderState.added)

/-- Tick input during the order-freeze window, with a live position, a
decision-triggering non-queued snapshot, a pending order reported `ADDED`,
and oracles that would accept any submission or cancellation. -/
def freezeInput : TickInput :=
  { phase := MarketPhase.orderFreeze, position := some pos100,
    market := normalMarket,
    broker := fun _ => some { orderState := OrderState.added, executedVolume := 0 },
    max_volume := 400000, submit := fun _ => some 7, cancelOk := fun _ => true }

/-- Watcher state entering the freeze window with one `ADDED` pending order
and a recorded target. -/
def freezeState : WatcherState :=
  { pending_orders := [orderAdded111], total_sold := 0, target_quantity := 100,
    running := true, last_market_phase := some MarketPhase.premarket,
    freeze_notified := false }

/-- Tick input in the trading phase against the empty queued snapshot (the
bare-`None` decision path). -/
def bareNoneInput : TickInput :=
  { phase := MarketPhase.trading, position := some pos100,
    market := emptyQueuedMarket, broker := brokerAbsent, max_volume := 400000,
    submit := fun _ => none, cancelOk := fun _ => false }

/-- Tick input in the trading phase with the polled position already at zero
quantity. -/
def zeroQtyInput : TickInput :=
  { phase := MarketPhase.trading, position := some zeroPosition,
    market := normalMarket, broker := brokerAbsent, max_volume := 400000,
    submit := fun _ => none, cancelOk := fun _ => false }

/-- Watcher state whose cumulative sold total has reached the target. -/
def doneState : WatcherState :=
  { pending_orders := [], total_sold := 100, target_quantity := 100,
    running := true, last_market_phase := some MarketPhase.trading,
    freeze_notified := false }

/-- Trace tick 1: trading phase, 100 shares held, queued market with fading
demand (sell at the best buy price 4500), the one submission succeeds with
serial 1. -/
def traceInput1 : TickInput :=
  { phase := MarketPhase.trading, position := some pos100,
    market := queuedLowMarket, broker := brokerAbsent, max_volume := 400000,
    submit := fun _ => some 1, cancelOk := fun _ => false }

/-- Trace ticks 2 and 3: 40 shares remain held, the snapshot is queued with
healthy demand (hold), and the broker keeps reporting the order
`PARTIAL_EXECUTED` with absolute executed volume 60. -/
def traceInput2 : TickInput :=
  { phase := MarketPhase.trading, position := some pos40,
    market := queuedHighMarket, broker := brokerPart60, max_volume := 400000,
    submit := fun _ => none, cancelOk := fun _ => false }

/-- C4: for every non-queued snapshot on which the decision engine returns a
sell action, the returned price equals `last_price * sell_discount` floored at
the session price floor — the floor applied after the discount — and is in
particular never below `min_price`. -/
theorem C4_price_floored_after_discount (config : PortfolioConfig)
    (market : MarketCondition) (phase : MarketPhase) (p : ℚ) (r : String)
    (hq : market.is_queued = false)
    (h : determine_sell_action config market phase = some (some p, some r)) :
    p = (if market.last_price * config.sell_discount < market.min_price
         then market.min_price else market.last_price * config.sell_discount) ∧
    market.min_price ≤ p := by
  have hp : p = (if market.last_price * config.sell_discount < market.min_price
      then market.min_price else market.last_price * config.sell_discount) := by
    unfold determine_sell_action at h
    rw [hq] at h
    simp only [Bool.false_eq_true, if_false] at h
    split at h <;> simp_all
  refine ⟨hp, ?_⟩
  rw [hp]
  split
  · exact le_refl _
  · exact le_of_not_lt (by assumption)

/-- Witness for C4 at the repository's own floor-test input: last price 3200,
discount 0.99, floor 3180; the discounted 3168 is pushed back up to 3180. -/
theorem C4_witness :
    (3180 : ℚ) =
      (if floorMarket.last_price * sampleConfig.sell_discount < floorMarket.min_price
       then floorMarket.min_price
       else floorMarket.last_price * sampleConfig.sell_discount) ∧
    floorMarket.min_price ≤ (3180 : ℚ) :=
  C4_price_floored_after_discount sampleConfig floorMarket MarketPhase.trading
    3180 "normal_market_sell" rfl
    (by norm_num [determine_sell_action, floorMarket, sampleConfig]
        all_goals decide)

/-- Counterexample to C5 as stated: a queued snapshot (consistently derived
from an empty book with zero sell volume) whose first-row buy volume is below
the threshold returns the bare `None` fall-through, not a
`(best buy price, queue_demand_low)` pair. -/
theorem C5_counterexample :
    emptyQueuedMarket.is_queued =
      compute_is_queued emptyQueuedMarket.total_sell_volume
        emptyQueuedMarket.best_limits emptyQueuedMarket.max_price ∧
    emptyQueuedMarket.first_row_buy_volume < sampleConfig.min_buy_volume ∧
    determine_sell_action sampleConfig emptyQueuedMarket MarketPhase.trading =
      none := by
  refine ⟨rfl, by decide, by decide⟩

/-- C5 amended: on a queued snapshot the decision function returns
`(best buy price, queue_demand_low)` when the first-row buy volume is below
the threshold and the best buy price is positive, the bare `None`
fall-through when the price is not positive, and the explicit hold
`(None, None)` when demand is at or above the threshold. -/
theorem C5_amended_queue_rules (config : PortfolioConfig)
    (market : MarketCondition) (phase : MarketPhase)
    (hq : market.is_queued = true) :
    determine_sell_action config market phase =
      (if market.first_row_buy_volume < config.min_buy_volume then
        (if 0 < market.best_buy_price then
          some (some market.best_buy_price, some "queue_demand_low")
         else none)
       else some (none, none)) := by
  unfold determine_sell_action
  rw [hq]
  rfl

/-- Witness for C5 at a queued snapshot with fading demand (100,000 <
30,000,000) and positive best buy price 4500. -/
theorem C5_witness :
    determine_sell_action sampleConfig queuedLowMarket MarketPhase.trading =
      (if queuedLowMarket.first_row_buy_volume < sampleConfig.min_buy_volume then
        (if 0 < queuedLowMarket.best_buy_price then
          some (some queuedLowMarket.best_buy_price, some "queue_demand_low")
         else none)
       else some (none, none)) :=
  C5_amended_queue_rules sampleConfig queuedLowMarket MarketPhase.trading rfl

/-- C10: on a queued snapshot with sub-threshold first-row buy volume and a
non-positive best buy price, the decision function returns a bare `None`;
the calling tick unpacks it, raises, and aborts with no order submitted. -/
theorem C10_bare_none_aborts_tick :
    determine_sell_action sampleConfig emptyQueuedMarket MarketPhase.trading =
      none ∧
    (checkAndAct sampleConfig bareNoneInput freshState).errored = true ∧
    (checkAndAct sampleConfig bareNoneInput freshState).effects = [] := by
  refine ⟨by decide, by decide, by decide⟩

/-- C2 is violated by the code: reconciling the same `PARTIAL_EXECUTED`
report (absolute executed volume 400 on a 1000-share order) twice credits
400 each time — the second call adds the absolute again instead of the
zero delta, moving the cumulative total from 400 to 800. -/
theorem C2_partial_fill_double_count :
    (updatePendingOrders brokerPart400 [order111] 0).2 = 400 ∧
    (updatePendingOrders brokerPart400
        (updatePendingOrders brokerPart400 [order111] 0).1
        (updatePendingOrders brokerPart400 [order111] 0).2).2 = 800 := by
  refine ⟨by decide, by decide⟩

/-- Counterexample to C7 as stated: an order whose broker-reported state is
the transient `CANCELING` is removed from the active set (without credit)
rather than kept for re-polling. -/
theorem C7_counterexample :
    (updatePendingOrders brokerCanceling [order111] 0).1 = [] ∧
    (updatePendingOrders brokerCanceling [order111] 0).2 = 0 := by
  refine ⟨by decide, by decide⟩

/-- C7 amended: after reconciliation the active set is exactly the orders
kept by the per-order step, an order with a broker report is kept iff its
reported state is `PARTIAL_EXECUTED`, `ADDED`, `ADDING` or `MODIFYING` (so
the transient `CANCELING` and `MODIFIED` are dropped too), and an order
reported `CANCELED` or `ERROR` is removed from the active set with nothing
credited to the cumulative total. -/
theorem C7_amended_active_set (broker : Int → Option BrokerStatus)
    (orders : List SellOrder) (total : Int) (o : SellOrder) (sn : Int)
    (st : BrokerStatus) (hsn : o.serial_number = some sn)
    (hst : broker sn = some st) :
    (updatePendingOrders broker orders total).1 =
      orders.filterMap (fun a => (processOrder broker a).1) ∧
    ((processOrder broker o).1.isSome ↔
      st.orderState = OrderState.partExecuted ∨
      st.orderState = OrderState.added ∨
      st.orderState = OrderState.adding ∨
      st.orderState = OrderState.modifying) ∧
    (st.orderState = OrderState.canceled ∨ st.orderState = OrderState.error →
      (processOrder broker o).1 = none ∧ (processOrder broker o).2 = 0) := by
  refine ⟨?_, ?_, ?_⟩
  · induction orders generalizing total with
    | nil => rfl
    | cons a rest ih =>
      simp only [updatePendingOrders, List.filterMap_cons]
      cases hpa : (processOrder broker a).1 <;> simp [hpa, ih]
  · obtain ⟨os, ev⟩ := st
    cases os <;> simp [processOrder, hsn, hst]
  · intro hco
    obtain ⟨os, ev⟩ := st
    simp only at hco
    rcases hco with h | h <;> subst h <;> simp [processOrder, hsn, hst]

/-- Witness for C7 on a singleton ledger with a partially-executed report:
the order is kept and the characterization holds. -/
theorem C7_witness :
    (updatePendingOrders brokerPart400 [order111] 0).1 =
      [order111].filterMap (fun a => (processOrder brokerPart400 a).1) ∧
    ((processOrder brokerPart400 order111).1.isSome ↔
      OrderState.partExecuted = OrderState.partExecuted ∨
      OrderState.partExecuted = OrderState.added ∨
      OrderState.partExecuted = OrderState.adding ∨
      OrderState.partExecuted = OrderState.modifying) ∧
    (OrderState.partExecuted = OrderState.canceled ∨
        OrderState.partExecuted = OrderState.error →
      (processOrder brokerPart400 order111).1 = none ∧
        (processOrder brokerPart400 order111).2 = 0) :=
  C7_amended_active_set brokerPart400 [order111] 0 order111 111
    { orderState := OrderState.partExecuted, executedVolume := 400 } rfl rfl

/-- C1 is violated by the code: on the repository's own sell-queue-panic test
snapshot (best sell pinned at floor 4500, aggregate sell 500,000,000 against
aggregate buy 500,000, consistently non-queued), `_determine_sell_action`
applies the normal-market rule and returns `(5194.53, normal_market_sell)`
instead of the `(4500, sell_queue_panic)` demanded by the spec and by
`test_determine_sell_action_sell_queue_panic`; no panic rule exists in the
code. -/
theorem C1_no_panic_rule_at_test_input :
    panicMarket.best_sell_price = panicMarket.min_price ∧
    panicMarket.total_buy_volume * 1000 = panicMarket.total_sell_volume ∧
    panicMarket.total_buy_volume < 1000000 ∧
    panicMarket.is_queued =
      compute_is_queued panicMarket.total_sell_volume panicMarket.best_limits
        panicMarket.max_price ∧
    determine_sell_action sampleConfig panicMarket MarketPhase.trading =
      some (some (519453 / 100), some "normal_market_sell") := by
  refine ⟨by decide, by decide, by decide, by decide, ?_⟩
  norm_num [determine_sell_action, panicMarket, sampleConfig]
  all_goals decide

/-- C3: while the session phase is OrderFreeze, one tick of the watcher makes
no broker mutation call whatsoever — the effect list of `checkAndAct` is
empty for every configuration, tick input and watcher state; the tick only
reconciles the ledger and returns. -/
theorem C3_freeze_no_broker_mutations (config : PortfolioConfig)
    (inp : TickInput) (s0 : WatcherState)
    (h : inp.phase = MarketPhase.orderFreeze) :
    (checkAndAct config inp s0).effects = [] := by
  simp only [checkAndAct, completionCheck, h]
  repeat' split
  all_goals first | rfl | simp_all

/-- Witness for C3: a freeze-phase tick with a live position, a pending
`ADDED` order and a decision-triggering non-queued snapshot still emits no
submission and no cancellation. -/
theorem C3_witness :
    (checkAndAct sampleConfig freezeInput freezeState).effects = [] :=
  C3_freeze_no_broker_mutations sampleConfig freezeInput freezeState rfl

/-- Counterexample to C8 as stated: with the polled position at zero quantity
but the cumulative sold total (50) still below the recorded target (100), the
watcher does not terminate — `running` stays `true`. -/
theorem C8_counterexample :
    positionGone zeroQtyInput.position = true ∧
    (checkAndAct sampleConfig zeroQtyInput midState).state.running = true := by
  refine ⟨by decide, by decide⟩

/-- C8 amended: a running watcher leaves the `running` state on a non-closed
tick exactly when the polled position is absent or at zero quantity AND a
liquidation target was recorded AND the cumulative sold total has reached
that target; in particular it never terminates via completion while the held
quantity is positive. -/
theorem C8_amended_completion (config : PortfolioConfig) (inp : TickInput)
    (s0 : WatcherState) (hph : inp.phase ≠ MarketPhase.closed)
    (hr : s0.running = true) :
    ((checkAndAct config inp s0).state.running = false ↔
      positionGone inp.position = true ∧ 0 < s0.target_quantity ∧
        s0.target_quantity ≤ s0.total_sold) := by
  obtain ⟨po, ts, tq, run, lp, fz⟩ := s0
  simp only at hr
  subst hr
  simp only [checkAndAct, completionCheck, if_neg hph]
  rcases hpos : inp.position with _ | pos
  all_goals simp only [hpos, positionGone]
  all_goals repeat' split
  all_goals simp_all

/-- Witness for C8: zero-quantity position with the target reached — the
completion condition on the right-hand side is satisfied and the watcher
stops. -/
theorem C8_witness :
    ((checkAndAct sampleConfig zeroQtyInput doneState).state.running = false ↔
      positionGone zeroQtyInput.position = true ∧
        0 < doneState.target_quantity ∧
        doneState.target_quantity ≤ doneState.total_sold) :=
  C8_amended_completion sampleConfig zeroQtyInput doneState (by decide) rfl

/-- Helper: every volume produced by the splitting loop is at most
`max_volume`, since each step submits `min remaining max_volume`. -/
theorem splitVolumes_all_le (m : Int) (n : Nat) :
    ∀ r : Int, ((splitVolumes m n r).all fun v => decide (v ≤ m)) = true := by
  induction n with
  | zero => intro r; rfl
  | succ n ih =>
    intro r
    simp only [splitVolumes, List.all_cons, Bool.and_eq_true, decide_eq_true_eq]
    exact ⟨min_le_right _ _, ih _⟩

/-- Helper: the splitting loop performs exactly as many submissions as the
`orders_needed` count it is given. -/
theorem splitVolumes_length (m : Int) (n : Nat) :
    ∀ r : Int, (splitVolumes m n r).length = n := by
  induction n with
  | zero => intro r; rfl
  | succ n ih => intro r; simp [splitVolumes, ih]

/-- Helper: the submission effects of the execute-sell loop are exactly the
split volumes, independently of which submissions succeed. -/
theorem executeSellLoop_effects (isin : String) (price : ℚ) (m : Int)
    (submit : Nat → Option Int) (n : Nat) :
    ∀ (r : Int) (i : Nat),
      (executeSellLoop isin price m submit n r i).2 =
        (splitVolumes m n r).map (Effect.placeOrder price) := by
  induction n with
  | zero => intro r i; rfl
  | succ n ih =>
    intro r i
    simp only [executeSellLoop, splitVolumes, List.map_cons]
    cases submit i <;> simp [ih]

/-- Helper: when the iteration count matches the ceiling bounds
`n * m < r ≤ (n + 1) * m`, the split volumes sum to exactly `r`. -/
theorem splitVolumes_sum (m : Int) (hm : 0 < m) :
    ∀ (n : Nat) (r : Int), (n : Int) * m < r → r ≤ ((n : Int) + 1) * m →
      (splitVolumes m (n + 1) r).sum = r := by
  intro n
  induction n with
  | zero =>
    intro r h1 h2
    simp only [Nat.cast_zero, zero_mul] at h1
    simp only [Nat.cast_zero, zero_add, one_mul] at h2
    simp [splitVolumes, min_eq_left h2]
  | succ n ih =>
    intro r h1 h2
    have e1 : ((n : Int) + 1 + 1) * m = ((n : Int) + 1) * m + m := by ring
    have e2 : ((n : Int) + 1) * m = (n : Int) * m + m := by ring
    have hnm : (0 : Int) ≤ (n : Int) * m := mul_nonneg (Int.natCast_nonneg n) hm.le
    have h1' : ((n : Int) + 1) * m < r := by
      push_cast at h1; linarith [e2]
    have hmr : m ≤ r := by linarith [e2]
    have hmin : min r m = m := min_eq_right hmr
    simp only [splitVolumes, List.sum_cons, hmin]
    have h2' : r - m ≤ ((n : Int) + 1) * m := by
      push_cast at h2; linarith [e1]
    have hsum := ih (r - m) (by linarith [e2]) h2'
    simp only [splitVolumes, List.sum_cons] at hsum
    linarith

/-- Helper: for positive `q` and `m`, `k = (q + m - 1) / m` is positive and
is the ceiling of `q / m`: `(k - 1) * m < q ≤ k * m`. -/
theorem ceilDiv_bounds (q m : Int) (hq : 0 < q) (hm : 0 < m) :
    0 < (q + m - 1) / m ∧ ((q + m - 1) / m - 1) * m < q ∧
      q ≤ ((q + m - 1) / m) * m := by
  have h1 := Int.ediv_add_emod (q + m - 1) m
  have h2 := Int.emod_nonneg (q + m - 1) (ne_of_gt hm)
  have h3 := Int.emod_lt_of_pos (q + m - 1) hm
  set k := (q + m - 1) / m with hk
  set r := (q + m - 1) % m with hr
  have hkpos : 0 < k := by
    by_contra hk0
    push_neg at hk0
    have : m * k ≤ 0 := mul_nonpos_iff.mpr (Or.inl ⟨hm.le, hk0⟩)
    linarith
  refine ⟨hkpos, ?_, ?_⟩
  · have e : (k - 1) * m = m * k - m := by ring
    linarith
  · have e : k * m = m * k := mul_comm k m
    linarith

/-- C6: executing a sell of target quantity `q > 0` with per-order maximum
`m > 0` attempts exactly `(q + m - 1) / m` (= ceiling of `q / m`) order
submissions whose quantities sum to exactly `q`, each at most `m`; and the
attempted submissions are the same whatever the success/failure outcomes of
the individual submissions are (a failure does not block the rest). -/
theorem C6_split_into_ceil_orders (isin : String) (price : ℚ) (q m : Int)
    (submit submit' : Nat → Option Int) (hq : 0 < q) (hm : 0 < m) :
    ((executeSell isin price q m submit).2.map effectVolume).sum = q ∧
    (executeSell isin price q m submit).2.length = ((q + m - 1) / m).toNat ∧
    (((executeSell isin price q m submit).2.map effectVolume).all
      fun v => decide (v ≤ m)) = true ∧
    (executeSell isin price q m submit').2 =
      (executeSell isin price q m submit).2 := by
  obtain ⟨hkpos, hlow, hhigh⟩ := ceilDiv_bounds q m hq hm
  set k := (q + m - 1) / m with hkdef
  obtain ⟨n, hn⟩ : ∃ n : Nat, k.toNat = n + 1 := ⟨k.toNat - 1, by omega⟩
  have hkn : k = (n : Int) + 1 := by omega
  have heff : (executeSell isin price q m submit).2 =
      (splitVolumes m k.toNat q).map (Effect.placeOrder price) :=
    executeSellLoop_effects isin price m submit k.toNat q 0
  have heff' : (executeSell isin price q m submit').2 =
      (splitVolumes m k.toNat q).map (Effect.placeOrder price) :=
    executeSellLoop_effects isin price m submit' k.toNat q 0
  have hvols : (executeSell isin price q m submit).2.map effectVolume =
      splitVolumes m k.toNat q := by
    rw [heff, List.map_map]
    simp [effectVolume, Function.comp_def]
  refine ⟨?_, ?_, ?_, ?_⟩
  · rw [hvols, hn]
    refine splitVolumes_sum m hm n q ?_ ?_
    · have e : (k - 1) * m = (n : Int) * m := by rw [hkn]; ring
      linarith [e ▸ hlow]
    · have e : k * m = ((n : Int) + 1) * m := by rw [hkn]
      linarith [e ▸ hhigh]
  · rw [heff, List.length_map, splitVolumes_length]
  · rw [hvols]
    exact splitVolumes_all_le m k.toNat q
  · rw [heff, heff']

/-- Witness for C6 at the spec's end-to-end scenario: 1,000,000 shares with a
400,000 maximum split into orders summing to 1,000,000 (3 orders of
400,000 / 400,000 / 200,000), identically whether submissions succeed or
fail. -/
theorem C6_witness :
    ((executeSell "IRO1TEST0001" 4950 1000000 400000
        (fun i => some ((i : Int) + 1))).2.map effectVolume).sum = 1000000 ∧
    (executeSell "IRO1TEST0001" 4950 1000000 400000
        (fun i => some ((i : Int) + 1))).2.length =
      ((1000000 + 400000 - 1) / 400000 : Int).toNat ∧
    (((executeSell "IRO1TEST0001" 4950 1000000 400000
        (fun i => some ((i : Int) + 1))).2.map effectVolume).all
      fun v => decide (v ≤ 400000)) = true ∧
    (executeSell "IRO1TEST0001" 4950 1000000 400000 (fun _ => none)).2 =
      (executeSell "IRO1TEST0001" 4950 1000000 400000
        (fun i => some ((i : Int) + 1))).2 :=
  C6_split_into_ceil_orders "IRO1TEST0001" 4950 1000000 400000
    (fun i => some ((i : Int) + 1)) (fun _ => none) (by decide) (by decide)

/-- C9 is violated by the code along a concrete three-tick trace: tick 1
(100 shares held, target recorded as 100, queued market with fading demand)
submits one order of 100 at the best buy price 4500; ticks 2 and 3 both see
the broker report that order `PARTIAL_EXECUTED` with absolute executed
volume 60 (40 shares remain held, market now holding), and each tick credits
the absolute 60 again, so after tick 3 the pending remaining volume (40)
plus the cumulative sold total (120) is 160 — strictly above the liquidation
target 100 recorded at watcher start. -/
theorem C9_pending_plus_sold_exceeds_target :
    (let s1 := (checkAndAct sampleConfig traceInput1 freshState).state
     let s2 := (checkAndAct sampleConfig traceInput2 s1).state
     let s3 := (checkAndAct sampleConfig traceInput2 s2).state
     s3.target_quantity = 100 ∧
       pendingVolume s3.pending_orders + s3.total_sold = 160 ∧
       s3.target_quantity < pendingVolume s3.pending_orders + s3.total_sold) := by
  refine ⟨by decide, by decide, by decide⟩

end SellerMarket
